import Mathlib

/-
Verification of the BLHeli32GKE brushless-motor ESC core
(src/src/BLHeli32GKE.c, compiled configuration: BESCNO Turnigy_Plush_30A_Multi,
hence MODE == MULTI_MODE and DAMPED_MODE_ENABLE undefined).

The C source is shallowly embedded below.  Machine integers (C int32) are
modelled as Lean Int; C truncating division is Int.tdiv.  The ESC-specific
FET switch primitives (AnFET_on and friends) have empty bodies in this port:
the real hardware layer lives in escincludes/Turnigy_Plush_30A.inc, which the
source references but which is not part of the repository.  Following the
design document, a call to such a primitive is modelled as the switch command
it names (setSwitch(leg, side, on)); the commutation routines are embedded as
the exact sequence of those commands and FET_DELAY waits that the C executes,
and as state transformers over the global variables they write.
-/

namespace BLHeli32GKE

/-- Constants of the compiled MULTI_MODE configuration (BLHeli32GKE.c lines
369-383) and the ESC-specific FET switching delays (lines 415-418). -/
def NFETON_DELAY : Int := 0

/-- PFETON_DELAY, defined 0 next to NFETON_DELAY in the source. -/
def PFETON_DELAY : Int := 0

/-- RCP_STOP for MULTI_MODE: stop motor at or below this pulse length. -/
def RCP_STOP : Int := 1

/-- RCP_STOP_LIMIT for MULTI_MODE. -/
def RCP_STOP_LIMIT : Int := 250

/-- The three motor legs (phases A, B, C). -/
inductive Leg
  | A
  | B
  | C
deriving DecidableEq, Repr

/-- The six power-stage switches: per leg a low-side nFET and a high-side
pFET (AnFET, ApFET, BnFET, BpFET, CnFET, CpFET in the source). -/
inductive Sw
  | An
  | Ap
  | Bn
  | Bp
  | Cn
  | Cp
deriving DecidableEq, Repr

/-- Leg a switch belongs to. -/
def legOf : Sw → Leg
  | .An => .A
  | .Ap => .A
  | .Bn => .B
  | .Bp => .B
  | .Cn => .C
  | .Cp => .C

/-- Complementary switch on the same leg (the one that together with the
given switch would short the leg if both were on). -/
def complSw : Sw → Sw
  | .An => .Ap
  | .Ap => .An
  | .Bn => .Bp
  | .Bp => .Bn
  | .Cn => .Cp
  | .Cp => .Cn

/-- Observable events of the phase-switching routines: a switch commanded
on, a switch commanded off, or a FET_DELAY busy-wait of the given number of
loop iterations. -/
inductive Ev
  | swOn (w : Sw)
  | swOff (w : Sw)
  | delay (n : Int)
deriving DecidableEq, Repr

/-- Iteration count of the C macro FET_DELAY(d) { int32 n=d; while(n-->0){} }:
d iterations when d is positive, none otherwise. -/
def fetDelayIters (d : Int) : Int := max d 0

/-- Trace of a FET_DELAY(d) call. -/
def fetDelayTrace (d : Int) : List Ev := [Ev.delay (fetDelayIters d)]

/-- Trace of All_nFETs_off(). -/
def All_nFETs_offTrace : List Ev := [Ev.swOff Sw.An, Ev.swOff Sw.Bn, Ev.swOff Sw.Cn]

/-- Trace of All_pFETs_off(). -/
def All_pFETs_offTrace : List Ev := [Ev.swOff Sw.Ap, Ev.swOff Sw.Bp, Ev.swOff Sw.Cp]

/-- Trace of All_pFETs_on(). -/
def All_pFETs_onTrace : List Ev := [Ev.swOn Sw.Ap, Ev.swOn Sw.Bp, Ev.swOn Sw.Cp]

/-- Trace of switch_power_off(): all nFETs off, then all pFETs off
(BLHeli32GKE.c lines 805-810). -/
def switch_power_offTrace : List Ev := All_nFETs_offTrace ++ All_pFETs_offTrace

/-- Trace of pwm_noBnFET_off() (dummy pwm on cycle). -/
def pwm_noBnFET_offTrace : List Ev := []

/-- Trace of pwm_aBnFET_off(): AnFET_on; BnFET_off. -/
def pwm_aBnFET_offTrace : List Ev := [Ev.swOn Sw.An, Ev.swOff Sw.Bn]

/-- Trace of pwm_bBnFET_off(): BnFET_on; CnFET_off. -/
def pwm_bBnFET_offTrace : List Ev := [Ev.swOn Sw.Bn, Ev.swOff Sw.Cn]

/-- Trace of pwm_cBnFET_off(): CnFET_on; AnFET_off. -/
def pwm_cBnFET_offTrace : List Ev := [Ev.swOn Sw.Cn, Ev.swOff Sw.An]

/-- Trace of pwm_anfet_bpBnFET_off() (damped state 6): ApFET_off; CpFET_off;
FET_DELAY(NFETON_DELAY); AnFET_on; BnFET_off. -/
def pwm_anfet_bpBnFET_offTrace : List Ev :=
  [Ev.swOff Sw.Ap, Ev.swOff Sw.Cp] ++ fetDelayTrace NFETON_DELAY
    ++ [Ev.swOn Sw.An, Ev.swOff Sw.Bn]

/-- Trace of pwm_anfet_cpBnFET_off() (damped state 5). -/
def pwm_anfet_cpBnFET_offTrace : List Ev :=
  [Ev.swOff Sw.Ap, Ev.swOff Sw.Bp] ++ fetDelayTrace NFETON_DELAY
    ++ [Ev.swOn Sw.An, Ev.swOff Sw.Bn]

/-- Trace of pwm_bnfet_cpBnFET_off() (damped state 4). -/
def pwm_bnfet_cpBnFET_offTrace : List Ev :=
  [Ev.swOff Sw.Bp, Ev.swOff Sw.Ap] ++ fetDelayTrace NFETON_DELAY
    ++ [Ev.swOn Sw.Bn, Ev.swOff Sw.Cn]

/-- Trace of pwm_bnfet_apBnFET_off() (damped state 3). -/
def pwm_bnfet_apBnFET_offTrace : List Ev :=
  [Ev.swOff Sw.Bp, Ev.swOff Sw.Cp] ++ fetDelayTrace NFETON_DELAY
    ++ [Ev.swOn Sw.Bn, Ev.swOff Sw.Cn]

/-- Trace of pwm_cnfet_apBnFET_off() (damped state 2). -/
def pwm_cnfet_apBnFET_offTrace : List Ev :=
  [Ev.swOff Sw.Cp, Ev.swOff Sw.Bp] ++ fetDelayTrace NFETON_DELAY
    ++ [Ev.swOn Sw.Cn, Ev.swOff Sw.An]

/-- Trace of pwm_cnfet_bpBnFET_off() (damped state 1). -/
def pwm_cnfet_bpBnFET_offTrace : List Ev :=
  [Ev.swOff Sw.Cp, Ev.swOff Sw.Ap] ++ fetDelayTrace NFETON_DELAY
    ++ [Ev.swOn Sw.Cn, Ev.swOff Sw.An]

/-- Trace of comm_exit() (MODE >= 1): on a direction-change brake,
switch_power_off, twice FET_DELAY(NFETON_DELAY), then All_pFETs_on. -/
def comm_exitTrace (dirBrake : Bool) : List Ev :=
  if dirBrake then
    switch_power_offTrace ++ fetDelayTrace NFETON_DELAY ++ fetDelayTrace NFETON_DELAY
      ++ All_pFETs_onTrace
  else []

/-- Trace of comm1comm2(): All_pFETs_off; in non-damped mode FET_DELAY after
setting DPTR; ApFET_on; then comm_exit. -/
def comm1comm2Trace (damped dirBrake : Bool) : List Ev :=
  All_pFETs_offTrace
    ++ (if !damped then fetDelayTrace NFETON_DELAY else [])
    ++ [Ev.swOn Sw.Ap]
    ++ comm_exitTrace dirBrake

/-- Trace of comm2comm3(): CnFET_off; non-damped: BpFET_off, CpFET_off,
FET_DELAY; then BnFET_on when pwm is not on; then comm_exit. -/
def comm2comm3Trace (damped pwmOn dirBrake : Bool) : List Ev :=
  [Ev.swOff Sw.Cn]
    ++ (if !damped then [Ev.swOff Sw.Bp, Ev.swOff Sw.Cp] ++ fetDelayTrace NFETON_DELAY
        else [])
    ++ (if !pwmOn then [Ev.swOn Sw.Bn] else [])
    ++ comm_exitTrace dirBrake

/-- Trace of comm3comm4(): All_pFETs_off; damped: FET_DELAY; CpFET_on; comm_exit. -/
def comm3comm4Trace (damped dirBrake : Bool) : List Ev :=
  All_pFETs_offTrace
    ++ (if damped then fetDelayTrace NFETON_DELAY else [])
    ++ [Ev.swOn Sw.Cp]
    ++ comm_exitTrace dirBrake

/-- Trace of comm4comm5(): BnFET_off; damped: ApFET_off, BpFET_off, FET_DELAY;
non-damped: AnFET_on when pwm on; comm_exit. -/
def comm4comm5Trace (damped pwmOn dirBrake : Bool) : List Ev :=
  [Ev.swOff Sw.Bn]
    ++ (if damped then [Ev.swOff Sw.Ap, Ev.swOff Sw.Bp] ++ fetDelayTrace NFETON_DELAY
        else if pwmOn then [Ev.swOn Sw.An] else [])
    ++ comm_exitTrace dirBrake

/-- Trace of comm5comm6(): All_pFETs_off; damped: FET_DELAY; BpFET_on; comm_exit. -/
def comm5comm6Trace (damped dirBrake : Bool) : List Ev :=
  All_pFETs_offTrace
    ++ (if damped then fetDelayTrace NFETON_DELAY else [])
    ++ [Ev.swOn Sw.Bp]
    ++ comm_exitTrace dirBrake

/-- Trace of comm6comm1(): AnFET_off; damped: ApFET_off, CpFET_off, FET_DELAY;
then CnFET_on when pwm on; comm_exit. -/
def comm6comm1Trace (damped pwmOn dirBrake : Bool) : List Ev :=
  [Ev.swOff Sw.An]
    ++ (if damped then [Ev.swOff Sw.Ap, Ev.swOff Sw.Cp] ++ fetDelayTrace NFETON_DELAY
        else [])
    ++ (if pwmOn then [Ev.swOn Sw.Cn] else [])
    ++ comm_exitTrace dirBrake

/-- Dead-time scan: processes a trace left to right, keeping the switches
turned off since the last dead-time wait of at least minD iterations; a
violation is a switch commanded on while its complementary switch is in that
pending set, i.e. an off-to-complementary-on pair with no intervening
FET_DELAY of at least minD iterations. -/
def deadtimeScan (minD : Int) : List Ev → List Sw → Bool
  | [], _ => true
  | Ev.swOff w :: rest, pending => deadtimeScan minD rest (w :: pending)
  | Ev.delay n :: rest, pending =>
      if minD ≤ n then deadtimeScan minD rest []
      else deadtimeScan minD rest pending
  | Ev.swOn w :: rest, pending =>
      if pending.contains (complSw w) then false
      else deadtimeScan minD rest pending

/-- Dead-time respected with minimum minD: between turning a switch off and
commanding its complementary switch on there is always an intervening delay
of at least minD iterations. -/
def deadtimeOK (minD : Int) (t : List Ev) : Bool := deadtimeScan minD t []

/-- Strict variant: as deadtimeScan, but only a delay that is both at least
minD and strictly positive (non-zero) counts as a dead-time wait. -/
def deadtimeScanPos (minD : Int) : List Ev → List Sw → Bool
  | [], _ => true
  | Ev.swOff w :: rest, pending => deadtimeScanPos minD rest (w :: pending)
  | Ev.delay n :: rest, pending =>
      if minD ≤ n ∧ 0 < n then deadtimeScanPos minD rest []
      else deadtimeScanPos minD rest pending
  | Ev.swOn w :: rest, pending =>
      if pending.contains (complSw w) then false
      else deadtimeScanPos minD rest pending

/-- Dead time respected with a non-zero delay of at least minD, as the design
document states it (dead-time delay at least the configured minimum and
non-zero). -/
def deadtimePos (minD : Int) (t : List Ev) : Bool := deadtimeScanPos minD t []

/-- Modelled from the spec: the meaning of the FET switch primitives.  Their
C bodies in this port are empty stubs; the real implementation is the
ESC-specific include escincludes/Turnigy_Plush_30A.inc, referenced by the
source but not part of the repository.  Per the design document the only way
the core affects motor hardware is setSwitch(leg, side, on); a SwState
records, per switch, whether it is currently commanded on. -/
structure SwState where
  an : Bool
  ap : Bool
  bn : Bool
  bp : Bool
  cn : Bool
  cp : Bool
deriving DecidableEq

/-- Modelled from the spec: setSwitch semantics of a single FET primitive
call, updating the commanded state of one switch. -/
def setSw (s : SwState) (w : Sw) (v : Bool) : SwState :=
  match w with
  | .An => { s with an := v }
  | .Ap => { s with ap := v }
  | .Bn => { s with bn := v }
  | .Bp => { s with bp := v }
  | .Cn => { s with cn := v }
  | .Cp => { s with cp := v }

/-- Apply one trace event to the commanded switch state. -/
def applyEv (s : SwState) (e : Ev) : SwState :=
  match e with
  | .swOn w => setSw s w true
  | .swOff w => setSw s w false
  | .delay _ => s

/-- Apply a whole trace, in order. -/
def applyTrace (s : SwState) (t : List Ev) : SwState := t.foldl applyEv s

/-- All six switches commanded off. -/
def allOffb (s : SwState) : Bool :=
  !s.an && !s.ap && !s.bn && !s.bp && !s.cn && !s.cp

/-- Identifier of a pwm-on-cycle routine, the value the source stores in the
DPTR function pointer. -/
inductive PwmId
  | pwm_noBnFET_off
  | pwm_aBnFET_off
  | pwm_bBnFET_off
  | pwm_cBnFET_off
  | pwm_anfet_bpBnFET_off
  | pwm_anfet_cpBnFET_off
  | pwm_bnfet_cpBnFET_off
  | pwm_bnfet_apBnFET_off
  | pwm_cnfet_apBnFET_off
  | pwm_cnfet_bpBnFET_off
deriving DecidableEq

/-- The fields of struct Params (the stored parameter snapshot P) that the
embedded operations read: Gov_Mode, Gov_P_Gain, Gov_I_Gain, Pwm_Freq,
Direction, Input_Pol.  The remaining fields of the C struct are read only by
code outside the embedded core (defaults setup, TX programming, beeper). -/
structure Params where
  Gov_Mode : Int
  Gov_P_Gain : Int
  Gov_I_Gain : Int
  Pwm_Freq : Int
  Direction : Int
  Input_Pol : Int
deriving DecidableEq

/-- Global mutable state of the core: the RAM variables and flags of
BLHeli32GKE.c that the embedded operations read or write, plus the commanded
switch state and the DPTR pwm-routine pointer. -/
structure CtlState where
  P : Params
  Requested_Pwm : Int
  Governor_Req_Pwm : Int
  Current_Pwm : Int
  Current_Pwm_Limited : Int
  Pwm_Motor_Idle : Int
  Gov_Target : Int
  Gov_Integral : Int
  Gov_Integral_X : Int
  Gov_Proportional : Int
  Gov_Active : Bool
  Comm_Period4x : Int
  Comm_Phase : Int
  New_Rcp : Int
  Rcp_Stop_Cnt : Int
  Rcp_Timeout_Cnt : Int
  Startup_Rot_Cnt : Int
  Pwm_Limit : Int
  Pwm_Limit_Spoolup : Int
  Pwm_Limit_Low_Rpm : Int
  Pwm_Spoolup_Beg : Int
  Spoolup_Limit_Cnt : Int
  Spoolup_Limit_Skip : Int
  Auto_Bailout_Armed : Int
  Temp8 : Int
  Comparator_Read_Cnt : Int
  runState : Int
  sw : SwState
  dptr : Option PwmId
  F_MOTOR_SPINNING : Bool
  F_DIR_CHANGE_BRAKE : Bool
  F_INITIAL_RUN_PHASE : Bool
  F_STARTUP_PHASE : Bool
  F_RCP_PPM : Bool
  F_PWM_ON : Bool
  F_PGM_PWMOFF_DAMPED : Bool
  F_PGM_DIR_REV : Bool
  F_PGM_RCP_PWM_POL : Bool
  F_PGM_PWM_HIGH_FREQ : Bool
  F_DEMAG_DETECTED : Bool
  F_DEMAG_CUT_POWER : Bool
deriving DecidableEq

/-- Modelled from the spec: Limit1 is a symmetric clamp from the UAVX.h
support header, which the source includes but which is not part of the
repository; it limits i to the signed range [-l, l]. -/
def Limit1 (i l : Int) : Int :=
  if i < -l then -l else if i > l then l else i

/-- governor_deactivate() for MULTI_MODE (lines 2351-2359): Current_Pwm is
set to Requested_Pwm, Gov_Target, Gov_Integral and Gov_Integral_X are zeroed
and Gov_Active is cleared.  Gov_Proportional is not written. -/
def governor_deactivate (s : CtlState) : CtlState :=
  { s with Current_Pwm := s.Requested_Pwm,
           Gov_Target := 0,
           Gov_Integral := 0,
           Gov_Integral_X := 0,
           Gov_Active := false }

/-- governor_activate() for MULTI_MODE (lines 2361-2368): Gov_Active is set
to (P.Gov_Mode != 0), Governor_Req_Pwm to Requested_Pwm, and Comm_Period4x to
(51000 / Requested_Pwm) * 2.  The division is unguarded in the C; it is
undefined when Requested_Pwm is 0, which the embedding makes none. -/
def governor_activate (s : CtlState) : Option CtlState :=
  if s.Requested_Pwm = 0 then none
  else some
    { s with Gov_Active := decide (s.P.Gov_Mode ≠ 0),
             Governor_Req_Pwm := s.Requested_Pwm,
             Comm_Period4x := (Int.tdiv 51000 s.Requested_Pwm) * 2 }

/-- calc_governor_target() for MULTI_MODE (lines 2370-2378): when P.Gov_Mode
is non-zero, governor_activate; otherwise deactivate exactly when the new RC
pulse is below RCP_STOP. -/
def calc_governor_target (s : CtlState) : Option CtlState :=
  if s.P.Gov_Mode ≠ 0 then governor_activate s
  else if s.New_Rcp < RCP_STOP then some (governor_deactivate s)
  else some s

/-- calc_governor_prop_error() for MULTI_MODE (lines 2384-2402): only acts
when the governor is active. -/
def calc_governor_prop_error (s : CtlState) : CtlState :=
  if s.Gov_Active then
    let gp := s.Governor_Req_Pwm - s.Gov_Target
    { s with Gov_Proportional := gp,
             Gov_Integral_X := Limit1 (s.Gov_Integral_X + gp) 127,
             Current_Pwm := Limit1 s.Current_Pwm s.Pwm_Limit }
  else s

/-- calc_governor_prop_correction() (lines 2404-2411). -/
def calc_governor_prop_correction (s : CtlState) : CtlState :=
  if s.Gov_Active then
    { s with Gov_Proportional :=
        Limit1 (Int.tdiv (s.P.Gov_P_Gain * s.Gov_Proportional) 16) 127 }
  else s

/-- calc_governor_int_correction() (lines 2413-2420). -/
def calc_governor_int_correction (s : CtlState) : CtlState :=
  if s.Gov_Active then
    { s with Gov_Integral :=
        Limit1 (Int.tdiv (s.P.Gov_I_Gain * s.Gov_Integral) 16) 127 }
  else s

/-- calc_governor_int_error(): empty body in the source. -/
def calc_governor_int_error (s : CtlState) : CtlState := s

/-- set_pwm_limit_low_rpm(): body entirely commented out in the source. -/
def set_pwm_limit_low_rpm (s : CtlState) : CtlState := s

/-- start_adc_conversion(): empty body in the source. -/
def start_adc_conversion (s : CtlState) : CtlState := s

/-- check_temp_voltage_and_limit_power(): empty body in the source. -/
def check_temp_voltage_and_limit_power (s : CtlState) : CtlState := s

/-- evaluate_comparator_integrity(): body entirely commented out. -/
def evaluate_comparator_integrity (s : CtlState) : CtlState := s

/-- setup_comm_wait(): executes only Delay1uS(Wt_Comm), a busy wait with no
effect on the modelled state; the timer setup is commented out. -/
def setup_comm_wait (s : CtlState) : CtlState := s

/-- wait_for_comm(): body entirely commented out. -/
def wait_for_comm (s : CtlState) : CtlState := s

/-- calc_next_comm_timing(): body entirely commented out. -/
def calc_next_comm_timing (s : CtlState) : CtlState := s

/-- wait_advance_timing(): body entirely commented out. -/
def wait_advance_timing (s : CtlState) : CtlState := s

/-- calc_new_wait_times(): body entirely commented out. -/
def calc_new_wait_times (s : CtlState) : CtlState := s

/-- wait_before_zc_scan(): body entirely commented out. -/
def wait_before_zc_scan (s : CtlState) : CtlState := s

/-- wait_for_comp_out_low() (lines 2938-2946): sets the demag-detected flag
as default and clears the comparator read counter. -/
def wait_for_comp_out_low (s : CtlState) : CtlState :=
  { s with F_DEMAG_DETECTED := true, Comparator_Read_Cnt := 0 }

/-- wait_for_comp_out_high() (lines 2948-2954): same executable effect as
wait_for_comp_out_low. -/
def wait_for_comp_out_high (s : CtlState) : CtlState :=
  { s with F_DEMAG_DETECTED := true, Comparator_Read_Cnt := 0 }

/-- Required comparator readings of wait_for_comp_out_not_timed_out()
(lines 3060-3085) as a function of Comm_Period4x: the pair (Temp1, Temp3) =
(number of OK readings required, number of fast consecutive readings).  The
lets mirror the C assignments, including the initial Temp1 = 1, Temp3 = 2
that both branches overwrite. -/
def compOutReadings (commPeriod4x : Int) : Int × Int :=
  let t1 : Int := 1
  let t3 : Int := 2
  if commPeriod4x > 0x0500 then
    let t1 : Int := 2
    if commPeriod4x > 0x0a00 then
      let t1 : Int := 3
      if commPeriod4x > 0x0f00 then
        let t3 : Int := 3
        (t1, t3)
      else (t1, t3)
    else (t1, t3)
  else
    let t1 : Int := 30
    let t3 : Int := 1
    (t1, t3)

/-- switch_power_off() as a state transformer (lines 805-810). -/
def switch_power_off (s : CtlState) : CtlState :=
  { s with sw := applyTrace s.sw switch_power_offTrace }

/-- comm1comm2() (lines 3259-3284): switch events per comm1comm2Trace, DPTR
set to pwm_cnfet_apBnFET_off in non-damped mode, comparator moved to phase B,
Comm_Phase set to 2, and comm_exit clearing the demag power-cut flag. -/
def comm1comm2 (s : CtlState) : CtlState :=
  { s with sw := applyTrace s.sw
              (comm1comm2Trace s.F_PGM_PWMOFF_DAMPED s.F_DIR_CHANGE_BRAKE),
           dptr := if !s.F_PGM_PWMOFF_DAMPED then some PwmId.pwm_cnfet_apBnFET_off
                   else s.dptr,
           Comm_Phase := 2,
           F_DEMAG_CUT_POWER := false }

/-- comm2comm3() (lines 3286-3309). -/
def comm2comm3 (s : CtlState) : CtlState :=
  { s with sw := applyTrace s.sw
              (comm2comm3Trace s.F_PGM_PWMOFF_DAMPED s.F_PWM_ON s.F_DIR_CHANGE_BRAKE),
           dptr := if !s.F_PGM_PWMOFF_DAMPED then some PwmId.pwm_bnfet_apBnFET_off
                   else some PwmId.pwm_bBnFET_off,
           Comm_Phase := 3,
           F_DEMAG_CUT_POWER := false }

/-- comm3comm4() (lines 3311-3337). -/
def comm3comm4 (s : CtlState) : CtlState :=
  { s with sw := applyTrace s.sw
              (comm3comm4Trace s.F_PGM_PWMOFF_DAMPED s.F_DIR_CHANGE_BRAKE),
           dptr := if s.F_PGM_PWMOFF_DAMPED then some PwmId.pwm_bnfet_cpBnFET_off
                   else s.dptr,
           Comm_Phase := 4,
           F_DEMAG_CUT_POWER := false }

/-- comm4comm5() (lines 3339-3358). -/
def comm4comm5 (s : CtlState) : CtlState :=
  { s with sw := applyTrace s.sw
              (comm4comm5Trace s.F_PGM_PWMOFF_DAMPED s.F_PWM_ON s.F_DIR_CHANGE_BRAKE),
           dptr := if s.F_PGM_PWMOFF_DAMPED then some PwmId.pwm_anfet_cpBnFET_off
                   else some PwmId.pwm_aBnFET_off,
           Comm_Phase := 5,
           F_DEMAG_CUT_POWER := false }

/-- comm5comm6() (lines 3360-3380). -/
def comm5comm6 (s : CtlState) : CtlState :=
  { s with sw := applyTrace s.sw
              (comm5comm6Trace s.F_PGM_PWMOFF_DAMPED s.F_DIR_CHANGE_BRAKE),
           dptr := if s.F_PGM_PWMOFF_DAMPED then some PwmId.pwm_anfet_bpBnFET_off
                   else s.dptr,
           Comm_Phase := 6,
           F_DEMAG_CUT_POWER := false }

/-- comm6comm1() (lines 3382-3402). -/
def comm6comm1 (s : CtlState) : CtlState :=
  { s with sw := applyTrace s.sw
              (comm6comm1Trace s.F_PGM_PWMOFF_DAMPED s.F_PWM_ON s.F_DIR_CHANGE_BRAKE),
           dptr := if s.F_PGM_PWMOFF_DAMPED then some PwmId.pwm_cnfet_bpBnFET_off
                   else some PwmId.pwm_cBnFET_off,
           Comm_Phase := 1,
           F_DEMAG_CUT_POWER := false }

/-- decode_parameters() (lines 3545-3580).  With DAMPED_MODE_ENABLE undefined
PGM_PWMOFF_DAMPED is always cleared; when P.Direction is not 3 the goto is
skipped and PGM_DIR_REV ends up true (the intervening conditional is
commented out); PGM_RCP_PWM_POL is assigned from P.Input_Pol; and the final
condition is written if (P.Pwm_Freq = 3), a C assignment, so it stores 3 into
P.Pwm_Freq, evaluates to 3 (truthy) and always takes the branch clearing
PGM_PWM_HIGH_FREQ. -/
def decode_parameters (s : CtlState) : CtlState :=
  let s1 := { s with Temp8 := s.P.Pwm_Freq, F_PGM_PWMOFF_DAMPED := false }
  let s2 := if s1.P.Direction = 3 then s1 else { s1 with F_PGM_DIR_REV := true }
  let s3 := { s2 with F_PGM_RCP_PWM_POL := decide (s2.P.Input_Pol ≠ 0) }
  { s3 with P := { s3.P with Pwm_Freq := 3 }, F_PGM_PWM_HIGH_FREQ := false }

/-- Labels of the DoHousekeeping() internal state machine, in the order of
the C enum at lines 4396-4415.  initialState is the value startState is
initialised to. -/
inductive StartState
  | validate_setpoint_start
  | initialState
  | damped_transition
  | initial_run_phase_done
  | run6_check_speed
  | wait_for_power_on
  | jmp_wait_for_power_on
  | run_to_next_state_main
  | init_no_signal
  | direct_start_check_setpoint
  | direct_start_check_rcp
  | run6_check_rcp_stop_count
  | run6_check_setpoint_timeout
  | run6_check_rcp_timeout
  | normal_run_check_startup_rot
  | run_to_wait_for_power_on
  | normal_run_checks
  | run6_check_setpoint_stop_count
  | finished_startup
deriving DecidableEq

/-- Body of the run_to_wait_for_power_on case of DoHousekeeping()
(lines 4490-4511): switch_power_off; zero Requested_Pwm, Governor_Req_Pwm,
Current_Pwm, Current_Pwm_Limited and Pwm_Motor_Idle; clear MOTOR_SPINNING;
Delay1uS(1000) (no modelled effect); switch_power_off again. -/
def run_to_wait_for_power_on_body (s : CtlState) : CtlState :=
  let s1 := switch_power_off s
  let s2 := { s1 with Requested_Pwm := 0, Governor_Req_Pwm := 0,
                      Current_Pwm := 0, Current_Pwm_Limited := 0,
                      Pwm_Motor_Idle := 0,
                      F_MOTOR_SPINNING := false }
  switch_power_off s2

/-- One pass of the switch statement inside the DoHousekeeping() do/while
loop (lines 4417-4546), compiled MULTI_MODE branch.  Notes on fidelity:
in case direct_start_check_rcp the else branch executes the comparison
startState == normal_run_checks, which has no effect, so startState keeps its
value; enum labels that have no case fall through the switch unchanged (there
is no default); and in case run_to_wait_for_power_on the if/else chain is
followed, with no break, by the label jmp_wait_for_power_on, so control falls
through into that case and startState always ends up wait_for_power_on. -/
def hkStep : StartState → CtlState → StartState × CtlState
  | .direct_start_check_rcp, s =>
      if s.New_Rcp > RCP_STOP then (.run_to_wait_for_power_on, s)
      else (.direct_start_check_rcp, { s with runState := 0 })
  | .normal_run_checks, s =>
      if s.F_DIR_CHANGE_BRAKE || s.F_INITIAL_RUN_PHASE then
        (.initial_run_phase_done, s)
      else if s.Startup_Rot_Cnt > 0 then (.normal_run_check_startup_rot, s)
      else (.damped_transition,
            { s with F_INITIAL_RUN_PHASE := false, Pwm_Limit := 0xFF })
  | .normal_run_check_startup_rot, s =>
      if s.New_Rcp < s.Startup_Rot_Cnt then (.run_to_wait_for_power_on, s)
      else (.finished_startup, { s with runState := 0 })
  | .initial_run_phase_done, s =>
      if s.Rcp_Stop_Cnt = 0 then
        (.run6_check_rcp_stop_count,
         { s with Pwm_Limit_Spoolup := s.Pwm_Spoolup_Beg,
                  Spoolup_Limit_Cnt := s.Auto_Bailout_Armed,
                  Spoolup_Limit_Skip := 1 })
      else (.run6_check_rcp_stop_count, s)
  | .run6_check_rcp_stop_count, s =>
      if s.Rcp_Stop_Cnt > RCP_STOP_LIMIT then (.run_to_wait_for_power_on, s)
      else (.run6_check_rcp_timeout, s)
  | .run6_check_rcp_timeout, s =>
      if !s.F_RCP_PPM then (.run6_check_speed, s)
      else if s.Rcp_Timeout_Cnt = 0 then (.run_to_wait_for_power_on, s)
      else (.run6_check_rcp_timeout, s)
  | .run6_check_speed, s =>
      if s.Comm_Period4x > (if s.F_DIR_CHANGE_BRAKE then 0x6000 else 0xf000) then
        (.run_to_wait_for_power_on, s)
      else (.finished_startup, { s with runState := 0 })
  | .run_to_wait_for_power_on, s =>
      (.wait_for_power_on, run_to_wait_for_power_on_body s)
  | .jmp_wait_for_power_on, s => (.wait_for_power_on, s)
  | .finished_startup, s => (.finished_startup, s)
  | st, s => (st, s)

/-- Iterated hkStep: the state of the DoHousekeeping() loop after n passes. -/
def hkIter : Nat → StartState × CtlState → StartState × CtlState
  | 0, p => p
  | n + 1, p => hkIter n (hkStep p.1 p.2)

/-- Comm_Phase value established by the commutation routine that the main
loop runs from a given runState value (run1 = 0 runs comm1comm2 which sets
phase 2, ..., run6 = 5 runs comm6comm1 which sets phase 1). -/
def runStateSector (r : Int) : Int :=
  if r = 0 then 2
  else if r = 1 then 3
  else if r = 2 then 4
  else if r = 3 then 5
  else if r = 4 then 6
  else 1

/-- One iteration of the main commutation loop body (main(), lines
4569-4636): evaluate_comparator_integrity and setup_comm_wait, the switch on
runState running the per-sector sequence ending in the commutation routine
and the runState update, then calc_next_comm_timing, wait_advance_timing,
calc_new_wait_times and wait_before_zc_scan.  The result is none exactly when
calc_governor_target (run1 sector) hits its unguarded division by
Requested_Pwm = 0.  DoHousekeeping(), which main calls at the end of the
iteration, is modelled separately by hkStep and hkIter. -/
def mainStep (s0 : CtlState) : Option CtlState :=
  let s := setup_comm_wait (evaluate_comparator_integrity s0)
  let afterSwitch : Option CtlState :=
    if s.runState = 0 then
      (calc_governor_target (wait_for_comp_out_high s)).map (fun s1 =>
        let s2 := comm1comm2 (wait_for_comm s1)
        { s2 with runState := s2.runState + 1 })
    else if s.runState = 1 then
      let s1 := set_pwm_limit_low_rpm (calc_governor_prop_error (wait_for_comp_out_low s))
      let s2 := comm2comm3 (wait_for_comm s1)
      some { s2 with runState := s2.runState + 1 }
    else if s.runState = 2 then
      let s1 := calc_governor_int_error (wait_for_comp_out_high s)
      let s2 := comm3comm4 (wait_for_comm s1)
      some { s2 with runState := s2.runState + 1 }
    else if s.runState = 3 then
      let s1 := calc_governor_prop_correction
        (setup_comm_wait (evaluate_comparator_integrity (wait_for_comp_out_low s)))
      let s2 := comm4comm5 (wait_for_comm s1)
      some { s2 with runState := s2.runState + 1 }
    else if s.runState = 4 then
      let s1 := calc_governor_int_correction (wait_for_comp_out_high s)
      let s2 := comm5comm6 (wait_for_comm s1)
      some { s2 with runState := s2.runState + 1 }
    else if s.runState = 5 then
      let s1 := check_temp_voltage_and_limit_power (setup_comm_wait
        (evaluate_comparator_integrity (start_adc_conversion (wait_for_comp_out_low s))))
      let s2 := comm6comm1 (wait_for_comm s1)
      some { s2 with runState := 0 }
    else some s
  afterSwitch.map (fun s3 =>
    wait_before_zc_scan (calc_new_wait_times (wait_advance_timing (calc_next_comm_timing s3))))

/-- Concrete reference state: the MULTI_MODE default parameters
(set_default_parameters, lines 3486-3517: Gov_Mode 4 is overridden to 0 here
so that the governor path is explicit per theorem; Pwm_Freq default 1) with
all RAM variables at their reset values and all switches commanded off. -/
def baseState : CtlState :=
  { P := { Gov_Mode := 0, Gov_P_Gain := 9, Gov_I_Gain := 9,
           Pwm_Freq := 1, Direction := 1, Input_Pol := 1 },
    Requested_Pwm := 0, Governor_Req_Pwm := 0, Current_Pwm := 0,
    Current_Pwm_Limited := 0, Pwm_Motor_Idle := 0,
    Gov_Target := 0, Gov_Integral := 0, Gov_Integral_X := 0,
    Gov_Proportional := 0, Gov_Active := false,
    Comm_Period4x := 0x7F00, Comm_Phase := 1, New_Rcp := 0,
    Rcp_Stop_Cnt := 0, Rcp_Timeout_Cnt := 24, Startup_Rot_Cnt := 0,
    Pwm_Limit := 255, Pwm_Limit_Spoolup := 255, Pwm_Limit_Low_Rpm := 255,
    Pwm_Spoolup_Beg := 0, Spoolup_Limit_Cnt := 0, Spoolup_Limit_Skip := 1,
    Auto_Bailout_Armed := 0, Temp8 := 0, Comparator_Read_Cnt := 0,
    runState := 0,
    sw := { an := false, ap := false, bn := false, bp := false,
            cn := false, cp := false },
    dptr := none,
    F_MOTOR_SPINNING := false, F_DIR_CHANGE_BRAKE := false,
    F_INITIAL_RUN_PHASE := false, F_STARTUP_PHASE := false,
    F_RCP_PPM := false, F_PWM_ON := false, F_PGM_PWMOFF_DAMPED := false,
    F_PGM_DIR_REV := false, F_PGM_RCP_PWM_POL := false,
    F_PGM_PWM_HIGH_FREQ := false, F_DEMAG_DETECTED := false,
    F_DEMAG_CUT_POWER := false }

/-- Claim C1, amended part: in every commutation routine (all six sectors,
both damping modes, pwm on or off, with or without a direction-change brake)
and in every damped pwm-on routine, whenever a switch is commanded off and
its complementary switch on the same leg is later commanded on, an
FET_DELAY dead-time wait of at least the configured minimum NFETON_DELAY
lies between the two commands; however NFETON_DELAY is configured as 0 in
this build, so that minimum dead time is zero iterations. -/
theorem claim_C1_deadtime :
    (∀ damped pwmOn dirBrake : Bool,
      deadtimeOK NFETON_DELAY (comm1comm2Trace damped dirBrake) = true ∧
      deadtimeOK NFETON_DELAY (comm2comm3Trace damped pwmOn dirBrake) = true ∧
      deadtimeOK NFETON_DELAY (comm3comm4Trace damped dirBrake) = true ∧
      deadtimeOK NFETON_DELAY (comm4comm5Trace damped pwmOn dirBrake) = true ∧
      deadtimeOK NFETON_DELAY (comm5comm6Trace damped dirBrake) = true ∧
      deadtimeOK NFETON_DELAY (comm6comm1Trace damped pwmOn dirBrake) = true) ∧
    deadtimeOK NFETON_DELAY pwm_anfet_bpBnFET_offTrace = true ∧
    deadtimeOK NFETON_DELAY pwm_anfet_cpBnFET_offTrace = true ∧
    deadtimeOK NFETON_DELAY pwm_bnfet_cpBnFET_offTrace = true ∧
    deadtimeOK NFETON_DELAY pwm_bnfet_apBnFET_offTrace = true ∧
    deadtimeOK NFETON_DELAY pwm_cnfet_apBnFET_offTrace = true ∧
    deadtimeOK NFETON_DELAY pwm_cnfet_bpBnFET_offTrace = true ∧
    deadtimeOK NFETON_DELAY pwm_aBnFET_offTrace = true ∧
    deadtimeOK NFETON_DELAY pwm_bBnFET_offTrace = true ∧
    deadtimeOK NFETON_DELAY pwm_cBnFET_offTrace = true ∧
    deadtimeOK NFETON_DELAY pwm_noBnFET_offTrace = true ∧
    fetDelayIters NFETON_DELAY = 0 := by
  decide

/-- Claim C1, counterexample to the claim as stated: the damped pwm-on
routine pwm_anfet_bpBnFET_off turns ApFET off and then turns its
complementary same-leg switch AnFET on, and the only dead-time wait in
between is FET_DELAY(NFETON_DELAY) with NFETON_DELAY = 0, i.e. zero
busy-loop iterations, so no non-zero dead-time delay separates the two
commands. -/
theorem claim_C1_counterexample :
    deadtimePos NFETON_DELAY pwm_anfet_bpBnFET_offTrace = false ∧
    pwm_anfet_bpBnFET_offTrace =
      [Ev.swOff Sw.Ap, Ev.swOff Sw.Cp, Ev.delay 0, Ev.swOn Sw.An, Ev.swOff Sw.Bn] ∧
    complSw Sw.An = Sw.Ap ∧ legOf Sw.An = legOf Sw.Ap := by
  decide

/-- Claim C2, amended: governor_deactivate zeroes Gov_Target, Gov_Integral
and Gov_Integral_X, clears Gov_Active, and sets Current_Pwm to the commanded
Requested_Pwm; Gov_Proportional is left unchanged, not zeroed. -/
theorem claim_C2_deactivate (s : CtlState) :
    (governor_deactivate s).Gov_Target = 0 ∧
    (governor_deactivate s).Gov_Integral = 0 ∧
    (governor_deactivate s).Gov_Integral_X = 0 ∧
    (governor_deactivate s).Gov_Active = false ∧
    (governor_deactivate s).Current_Pwm = s.Requested_Pwm ∧
    (governor_deactivate s).Gov_Proportional = s.Gov_Proportional :=
  ⟨rfl, rfl, rfl, rfl, rfl, rfl⟩

/-- Claim C2, counterexample to the claim as stated: deactivating from an
active governor state with proportional error 5 leaves Gov_Proportional at
5, not 0. -/
theorem claim_C2_counterexample :
    ({ baseState with Gov_Active := true, Gov_Proportional := 5 } : CtlState).Gov_Active
      = true ∧
    (governor_deactivate
      { baseState with Gov_Active := true, Gov_Proportional := 5 }).Gov_Proportional
      = 5 ∧
    (5 : Int) ≠ 0 := by
  decide

/-- State used for the C3 counterexample: all three activation preconditions
of the claim fail (commanded throttle New_Rcp = 0 is below RCP_STOP, the
startup and initial-run phases are engaged, and the measured speed is below
any minimum: Comm_Period4x is above even the plain-stall bound 0xf000), yet
P.Gov_Mode = 1 is non-zero.  Requested_Pwm = 1 keeps the internal division of
governor_activate defined. -/
def c3s : CtlState :=
  { baseState with P := { baseState.P with Gov_Mode := 1 },
                   New_Rcp := 0, F_STARTUP_PHASE := true,
                   F_INITIAL_RUN_PHASE := true, Comm_Period4x := 0xf001,
                   Requested_Pwm := 1, Gov_Active := false }

/-- Claim C3, counterexample to the claim as stated: at c3s every one of the
three claimed preconditions fails, yet calc_governor_target returns a state
with Gov_Active = true instead of leaving it false. -/
theorem claim_C3_counterexample :
    c3s.New_Rcp < RCP_STOP ∧ c3s.F_STARTUP_PHASE = true ∧
    c3s.F_INITIAL_RUN_PHASE = true ∧ c3s.Comm_Period4x > 0xf000 ∧
    c3s.Gov_Active = false ∧
    Option.map CtlState.Gov_Active (calc_governor_target c3s) = some true := by
  decide

/-- Claim C3, amended: in the compiled MULTI_MODE build calc_governor_target
ignores throttle, startup phase and measured speed.  Whenever P.Gov_Mode is
non-zero it calls governor_activate, which (when its division is defined,
i.e. Requested_Pwm is non-zero) sets Gov_Active to true; with P.Gov_Mode = 0
it deactivates exactly when New_Rcp is below RCP_STOP and otherwise leaves
the state unchanged. -/
theorem claim_C3_activation (s : CtlState) :
    (s.P.Gov_Mode ≠ 0 → calc_governor_target s = governor_activate s) ∧
    (s.P.Gov_Mode ≠ 0 → s.Requested_Pwm ≠ 0 →
      Option.map CtlState.Gov_Active (calc_governor_target s) = some true) ∧
    (s.P.Gov_Mode = 0 → s.New_Rcp < RCP_STOP →
      calc_governor_target s = some (governor_deactivate s)) ∧
    (s.P.Gov_Mode = 0 → ¬ s.New_Rcp < RCP_STOP →
      calc_governor_target s = some s) := by
  refine ⟨fun h => by simp [calc_governor_target, h],
          fun h hr => ?_,
          fun h hr => by simp [calc_governor_target, h, hr],
          fun h hr => by simp [calc_governor_target, h, hr]⟩
  simp [calc_governor_target, governor_activate, h, hr]

/-- Witness for claim C3: at the concrete state c3s the amended theorem
applies with its hypotheses discharged. -/
theorem claim_C3_activation_witness :
    calc_governor_target c3s = governor_activate c3s ∧
    Option.map CtlState.Gov_Active (calc_governor_target c3s) = some true :=
  ⟨(claim_C3_activation c3s).1 (by decide),
   (claim_C3_activation c3s).2.1 (by decide) (by decide)⟩

/-- Claim C4: required consecutive OK comparator readings at the boundary.
The code requires 30 OK readings at Comm_Period4x = 0x0500 but only 2 at the
strictly larger period 0x0501: the required readings drop as the period
grows, contradicting the rule (stated in the comment above the code itself)
that lower speeds require more readings. -/
theorem claim_C4_readings :
    (compOutReadings 0x0500).1 = 30 ∧ (compOutReadings 0x0501).1 = 2 ∧
    (0x0500 : Int) < 0x0501 ∧ (2 : Int) < 30 ∧
    (compOutReadings 0x0a00).1 = 2 ∧ (compOutReadings 0x0a01).1 = 3 := by
  decide

/-- Claim C5: from housekeeping state run6_check_speed the machine moves to
run_to_wait_for_power_on exactly when Comm_Period4x exceeds the stall
threshold, the threshold during a direction-change brake (0x6000) is
strictly lower than the plain-stall threshold (0xf000), and at or below the
applicable threshold the loop instead reaches finished_startup (the run loop
continues) with runState reset to run1. -/
theorem claim_C5_stall_exit (s : CtlState) :
    ((hkStep StartState.run6_check_speed s).1 = StartState.run_to_wait_for_power_on ↔
      s.Comm_Period4x > (if s.F_DIR_CHANGE_BRAKE then 0x6000 else 0xf000)) ∧
    (0x6000 : Int) < 0xf000 ∧
    (s.Comm_Period4x ≤ (if s.F_DIR_CHANGE_BRAKE then 0x6000 else 0xf000) →
      (hkStep StartState.run6_check_speed s).1 = StartState.finished_startup ∧
      ((hkStep StartState.run6_check_speed s).2).runState = 0) := by
  by_cases h : s.Comm_Period4x > (if s.F_DIR_CHANGE_BRAKE then (0x6000 : Int) else 0xf000)
  · refine ⟨by simp [hkStep, h], by decide, fun hle => absurd h (not_lt.mpr hle)⟩
  · exact ⟨by simp [hkStep, h], by decide, fun hle => by simp [hkStep, h]⟩

/-- Witness for claim C5: with Comm_Period4x = 0xf001 and no direction
change the exit is taken; with Comm_Period4x = 0xf000 it is not and the run
loop continues. -/
theorem claim_C5_stall_exit_witness :
    (hkStep StartState.run6_check_speed
        { baseState with Comm_Period4x := 0xf001 }).1
      = StartState.run_to_wait_for_power_on ∧
    (hkStep StartState.run6_check_speed
        { baseState with Comm_Period4x := 0xf000 }).1
      = StartState.finished_startup :=
  ⟨(claim_C5_stall_exit { baseState with Comm_Period4x := 0xf001 }).1.mpr (by decide),
   ((claim_C5_stall_exit { baseState with Comm_Period4x := 0xf000 }).2.2 (by decide)).1⟩

/-- Claim C6, amended: the run_to_wait_for_power_on transition of
DoHousekeeping commands every switch off (via switch_power_off), zeroes
Requested_Pwm, Governor_Req_Pwm, Current_Pwm, Current_Pwm_Limited and
Pwm_Motor_Idle, and clears MOTOR_SPINNING; the governor target Gov_Target
and the pwm limit variables Pwm_Limit, Pwm_Limit_Spoolup and
Pwm_Limit_Low_Rpm are left unchanged, not zeroed. -/
theorem claim_C6_power_off (s : CtlState) :
    allOffb ((hkStep StartState.run_to_wait_for_power_on s).2).sw = true ∧
    ((hkStep StartState.run_to_wait_for_power_on s).2).Requested_Pwm = 0 ∧
    ((hkStep StartState.run_to_wait_for_power_on s).2).Governor_Req_Pwm = 0 ∧
    ((hkStep StartState.run_to_wait_for_power_on s).2).Current_Pwm = 0 ∧
    ((hkStep StartState.run_to_wait_for_power_on s).2).Current_Pwm_Limited = 0 ∧
    ((hkStep StartState.run_to_wait_for_power_on s).2).Pwm_Motor_Idle = 0 ∧
    ((hkStep StartState.run_to_wait_for_power_on s).2).F_MOTOR_SPINNING = false ∧
    ((hkStep StartState.run_to_wait_for_power_on s).2).Gov_Target = s.Gov_Target ∧
    ((hkStep StartState.run_to_wait_for_power_on s).2).Pwm_Limit = s.Pwm_Limit ∧
    ((hkStep StartState.run_to_wait_for_power_on s).2).Pwm_Limit_Spoolup
      = s.Pwm_Limit_Spoolup ∧
    ((hkStep StartState.run_to_wait_for_power_on s).2).Pwm_Limit_Low_Rpm
      = s.Pwm_Limit_Low_Rpm ∧
    (hkStep StartState.run_to_wait_for_power_on s).1 = StartState.wait_for_power_on :=
  ⟨rfl, rfl, rfl, rfl, rfl, rfl, rfl, rfl, rfl, rfl, rfl, rfl⟩

/-- Claim C6, counterexample to the claim as stated: entering the transition
with Gov_Target = 7 and Pwm_Limit = 100 leaves both at their old non-zero
values afterwards. -/
theorem claim_C6_counterexample :
    ((hkStep StartState.run_to_wait_for_power_on
        { baseState with Gov_Target := 7, Pwm_Limit := 100 }).2).Gov_Target = 7 ∧
    ((hkStep StartState.run_to_wait_for_power_on
        { baseState with Gov_Target := 7, Pwm_Limit := 100 }).2).Pwm_Limit = 100 ∧
    (7 : Int) ≠ 0 ∧ (100 : Int) ≠ 0 := by
  decide

/-- Helper: when calc_governor_target succeeds it changes none of runState,
Comm_Phase and the parameter snapshot P. -/
theorem calc_governor_target_frame {s t : CtlState}
    (h : calc_governor_target s = some t) :
    t.runState = s.runState ∧ t.Comm_Phase = s.Comm_Phase ∧ t.P = s.P := by
  unfold calc_governor_target governor_activate at h
  split at h
  · split at h
    · exact absurd h (by simp)
    · obtain rfl := Option.some.inj h
      exact ⟨rfl, rfl, rfl⟩
  · split at h
    · obtain rfl := Option.some.inj h
      exact ⟨rfl, rfl, rfl⟩
    · obtain rfl := Option.some.inj h
      exact ⟨rfl, rfl, rfl⟩

/-- Helper: wait_for_comp_out_low does not touch runState. -/
theorem wait_for_comp_out_low_runState (s : CtlState) :
    (wait_for_comp_out_low s).runState = s.runState := rfl

/-- Helper: wait_for_comp_out_high does not touch runState. -/
theorem wait_for_comp_out_high_runState (s : CtlState) :
    (wait_for_comp_out_high s).runState = s.runState := rfl

/-- Helper: calc_governor_prop_error does not touch runState. -/
theorem calc_governor_prop_error_runState (s : CtlState) :
    (calc_governor_prop_error s).runState = s.runState := by
  unfold calc_governor_prop_error
  split <;> rfl

/-- Helper: calc_governor_prop_correction does not touch runState. -/
theorem calc_governor_prop_correction_runState (s : CtlState) :
    (calc_governor_prop_correction s).runState = s.runState := by
  unfold calc_governor_prop_correction
  split <;> rfl

/-- Helper: calc_governor_int_correction does not touch runState. -/
theorem calc_governor_int_correction_runState (s : CtlState) :
    (calc_governor_int_correction s).runState = s.runState := by
  unfold calc_governor_int_correction
  split <;> rfl

/-- Claim C7: one iteration of the main commutation loop advances runState
by exactly one step in the cyclic order run1 .. run6 (modelled as 0 .. 5),
keeps it in that range, and runs the matching commutation routine so that
Comm_Phase ends at the matching sector value in 1..6 (runStateSector);
moreover each commutation routine sets Comm_Phase to its sector value
(comm1comm2 sets 2, ..., comm6comm1 sets 1), so no commutation ever leaves
Comm_Phase outside 1..6. -/
theorem claim_C7_run_cycle :
    (∀ s t : CtlState, 0 ≤ s.runState → s.runState ≤ 5 → mainStep s = some t →
      t.runState = (s.runState + 1) % 6 ∧
      t.Comm_Phase = runStateSector s.runState ∧
      1 ≤ t.Comm_Phase ∧ t.Comm_Phase ≤ 6 ∧
      0 ≤ t.runState ∧ t.runState ≤ 5) ∧
    (∀ s, (comm1comm2 s).Comm_Phase = 2) ∧
    (∀ s, (comm2comm3 s).Comm_Phase = 3) ∧
    (∀ s, (comm3comm4 s).Comm_Phase = 4) ∧
    (∀ s, (comm4comm5 s).Comm_Phase = 5) ∧
    (∀ s, (comm5comm6 s).Comm_Phase = 6) ∧
    (∀ s, (comm6comm1 s).Comm_Phase = 1) := by
  refine ⟨?_, fun s => rfl, fun s => rfl, fun s => rfl, fun s => rfl,
          fun s => rfl, fun s => rfl⟩
  intro s t h0 h5 hm
  unfold mainStep at hm
  simp only [setup_comm_wait, evaluate_comparator_integrity, wait_for_comm,
    wait_before_zc_scan, calc_new_wait_times, wait_advance_timing,
    calc_next_comm_timing, set_pwm_limit_low_rpm, calc_governor_int_error,
    start_adc_conversion, check_temp_voltage_and_limit_power,
    Option.map_id'] at hm
  have hcase : s.runState = 0 ∨ s.runState = 1 ∨ s.runState = 2 ∨
      s.runState = 3 ∨ s.runState = 4 ∨ s.runState = 5 := by omega
  rcases hcase with hr | hr | hr | hr | hr | hr
  · rw [if_pos hr] at hm
    obtain ⟨a, ha, hat⟩ := Option.map_eq_some'.mp hm
    have haR : a.runState = s.runState := (calc_governor_target_frame ha).1
    subst hat
    refine ⟨?_, ?_, ?_, ?_, ?_, ?_⟩ <;>
      simp only [comm1comm2, runStateSector, haR, hr] <;> decide
  · rw [if_neg (by omega), if_pos hr] at hm
    obtain rfl := Option.some.inj hm
    refine ⟨?_, ?_, ?_, ?_, ?_, ?_⟩ <;>
      simp only [comm2comm3, calc_governor_prop_error_runState,
        wait_for_comp_out_low_runState, runStateSector, hr] <;> decide
  · rw [if_neg (by omega), if_neg (by omega), if_pos hr] at hm
    obtain rfl := Option.some.inj hm
    refine ⟨?_, ?_, ?_, ?_, ?_, ?_⟩ <;>
      simp only [comm3comm4, wait_for_comp_out_high_runState,
        runStateSector, hr] <;> decide
  · rw [if_neg (by omega), if_neg (by omega), if_neg (by omega), if_pos hr] at hm
    obtain rfl := Option.some.inj hm
    refine ⟨?_, ?_, ?_, ?_, ?_, ?_⟩ <;>
      simp only [comm4comm5, calc_governor_prop_correction_runState,
        wait_for_comp_out_low_runState, runStateSector, hr] <;> decide
  · rw [if_neg (by omega), if_neg (by omega), if_neg (by omega),
        if_neg (by omega), if_pos hr] at hm
    obtain rfl := Option.some.inj hm
    refine ⟨?_, ?_, ?_, ?_, ?_, ?_⟩ <;>
      simp only [comm5comm6, calc_governor_int_correction_runState,
        wait_for_comp_out_high_runState, runStateSector, hr] <;> decide
  · rw [if_neg (by omega), if_neg (by omega), if_neg (by omega),
        if_neg (by omega), if_neg (by omega), if_pos hr] at hm
    obtain rfl := Option.some.inj hm
    refine ⟨?_, ?_, ?_, ?_, ?_, ?_⟩ <;>
      simp only [comm6comm1, wait_for_comp_out_low_runState,
        runStateSector, hr] <;> decide

/-- Concrete state for the C7 witness: runState = run1, governor mode off,
throttle above stop so calc_governor_target leaves the state unchanged. -/
def c7s : CtlState := { baseState with runState := 0, New_Rcp := 5 }

/-- Expected state after one main-loop iteration from c7s: comparator wait
flags set, comm1comm2 has driven ApFET on (non-damped), DPTR points at
pwm_cnfet_apBnFET_off, Comm_Phase is 2 and runState advanced to run2. -/
def c7t : CtlState :=
  { c7s with F_DEMAG_DETECTED := true, Comparator_Read_Cnt := 0,
             sw := { an := false, ap := true, bn := false, bp := false,
                     cn := false, cp := false },
             dptr := some PwmId.pwm_cnfet_apBnFET_off,
             Comm_Phase := 2, runState := 1 }

/-- Witness for claim C7: at the concrete state c7s one main-loop iteration
produces c7t, and the theorem applied there gives the one-step cyclic
advance and the matching commutation phase. -/
theorem claim_C7_run_cycle_witness :
    mainStep c7s = some c7t ∧
    c7t.runState = (c7s.runState + 1) % 6 ∧
    c7t.Comm_Phase = runStateSector c7s.runState :=
  have hm : mainStep c7s = some c7t := by decide
  ⟨hm, (claim_C7_run_cycle.1 c7s c7t (by decide) (by decide) hm).1,
       (claim_C7_run_cycle.1 c7s c7t (by decide) (by decide) hm).2.1⟩

/-- Claim C8: decode_parameters writes the parameter snapshot P.  Its final
condition is written if (P.Pwm_Freq = 3), a C assignment rather than a
comparison, so every call stores 3 into P.Pwm_Freq (contradicting the
intended read-only treatment of P); no other field of P is written.  At the
MULTI default Pwm_Freq = 1 the stored parameter is changed to 3. -/
theorem claim_C8_decode_writes :
    (∀ s : CtlState, (decode_parameters s).P = { s.P with Pwm_Freq := 3 }) ∧
    baseState.P.Pwm_Freq = 1 ∧
    (decode_parameters baseState).P.Pwm_Freq = 3 := by
  refine ⟨fun s => ?_, by decide, by decide⟩
  by_cases h : s.P.Direction = 3 <;> simp [decode_parameters, h]

/-- Helper: the DoHousekeeping switch has no case (and no default) for
initialState, so a pass through the loop leaves it unchanged. -/
theorem hkStep_initialState (s : CtlState) :
    hkStep StartState.initialState s = (StartState.initialState, s) := rfl

/-- Claim C9: DoHousekeeping never terminates.  startState is initialised to
initialState, which no case of the switch handles, so no case body ever
runs: after any number of loop passes the state is still initialState and
the do/while condition startState != finished_startup never becomes false. -/
theorem claim_C9_housekeeping_stuck :
    ∀ (n : Nat) (s : CtlState),
      (hkIter n (StartState.initialState, s)).1 = StartState.initialState ∧
      (hkIter n (StartState.initialState, s)).1 ≠ StartState.finished_startup := by
  intro n
  induction n with
  | zero => exact fun s => ⟨rfl, fun hc => StartState.noConfusion hc⟩
  | succ n ih =>
      intro s
      have h : hkIter (n + 1) (StartState.initialState, s)
          = hkIter n (StartState.initialState, s) := by
        show hkIter n (hkStep StartState.initialState s)
          = hkIter n (StartState.initialState, s)
        rw [hkStep_initialState]
      rw [h]
      exact ih s

/-- Witness for claim C9: after 1000 passes from the initial entry state the
loop has still not reached finished_startup. -/
theorem claim_C9_housekeeping_stuck_witness :
    (hkIter 1000 (StartState.initialState, baseState)).1
      ≠ StartState.finished_startup :=
  (claim_C9_housekeeping_stuck 1000 baseState).2

/-- Claim C10: governor_activate divides 51000 by Requested_Pwm with no
guard, so it is well defined exactly when Requested_Pwm is non-zero; its
call site calc_governor_target invokes it whenever P.Gov_Mode is non-zero,
establishing no such precondition; and the run_to_wait_for_power_on
transition of DoHousekeeping sets Requested_Pwm to 0. -/
theorem claim_C10_div_unguarded :
    (∀ s : CtlState, s.Requested_Pwm = 0 → governor_activate s = none) ∧
    (∀ s : CtlState, s.Requested_Pwm ≠ 0 → (governor_activate s).isSome = true) ∧
    (∀ s : CtlState, s.P.Gov_Mode ≠ 0 →
      calc_governor_target s = governor_activate s) ∧
    (∀ s : CtlState,
      ((hkStep StartState.run_to_wait_for_power_on s).2).Requested_Pwm = 0) := by
  refine ⟨fun s h => by simp [governor_activate, h],
          fun s h => by simp [governor_activate, h],
          fun s h => by simp [calc_governor_target, h],
          fun s => rfl⟩

/-- State for the C10 witness: the motor-off transition has set
Requested_Pwm to 0 while P.Gov_Mode = 1 keeps the governor path selected. -/
def c10s : CtlState :=
  { baseState with Requested_Pwm := 0, P := { baseState.P with Gov_Mode := 1 } }

/-- Witness for claim C10: at c10s the division is undefined, the call site
still reaches it, and the motor-off transition indeed zeroes Requested_Pwm. -/
theorem claim_C10_div_unguarded_witness :
    governor_activate c10s = none ∧
    calc_governor_target c10s = none ∧
    ((hkStep StartState.run_to_wait_for_power_on c10s).2).Requested_Pwm = 0 :=
  ⟨claim_C10_div_unguarded.1 c10s (by decide),
   by rw [claim_C10_div_unguarded.2.2.1 c10s (by decide)]
      exact claim_C10_div_unguarded.1 c10s (by decide),
   claim_C10_div_unguarded.2.2.2 c10s⟩

end BLHeli32GKE
